import Mathlib

/-!
Verification development for the Gordon Growth Model required-return
calculator (reqreturn). The numeric code is embedded over the exact
rationals; the stateful store and the update orchestrator are embedded
as explicit state-passing functions.
-/

/-! ## Calculation engine (src/return-modules/state.js, calculations part) -/

/-- Input triple of `calculateRequiredReturn`: `{marketPrice, currentDividend, growthRate}`.
`growthRate` is a percentage. -/
structure ReturnParams where
  marketPrice : ℚ
  currentDividend : ℚ
  growthRate : ℚ
deriving DecidableEq

/-- Result object of `calculateRequiredReturn`. -/
structure ReturnResult where
  requiredReturn : ℚ
  requiredReturnDecimal : ℚ
  d1 : ℚ
  dividendYield : ℚ
  dividendYieldDecimal : ℚ
  growthRateDecimal : ℚ
  isValid : Bool
deriving DecidableEq

/-- `calculateRequiredReturn` from src/return-modules/state.js:
`g = growthRate / 100`, `d1 = currentDividend * (1 + g)`,
`dividendYield = d1 / marketPrice`, `requiredReturn = dividendYield + g`,
percentage variants scaled by 100, and
`isValid = requiredReturn > 0 && g < requiredReturn`. -/
def calculateRequiredReturn (p : ReturnParams) : ReturnResult :=
  let g := p.growthRate / 100
  let d1 := p.currentDividend * (1 + g)
  let dividendYield := d1 / p.marketPrice
  let requiredReturn := dividendYield + g
  { requiredReturn := requiredReturn * 100
    requiredReturnDecimal := requiredReturn
    d1 := d1
    dividendYield := dividendYield * 100
    dividendYieldDecimal := dividendYield
    growthRateDecimal := g
    isValid := decide (requiredReturn > 0) && decide (g < requiredReturn) }

/-- One element of the cash-flow projection produced by `generateCashFlows`. -/
structure CashFlowPoint where
  year : ℕ
  dividend : ℚ
  investment : ℚ
  totalCashFlow : ℚ
  cumulativeCashFlow : ℚ
deriving DecidableEq

/-- Input object of `generateCashFlows`; `years` defaults to 10 as in the source. -/
structure GenParams where
  marketPrice : ℚ
  currentDividend : ℚ
  growthRateDecimal : ℚ
  years : ℕ := 10
deriving DecidableEq

/-- The `for (let year = 1; year <= years; year++)` loop of `generateCashFlows`,
with `n` remaining iterations, current loop counter `year` and running
accumulator `cumulativeTotal`. Each iteration pushes
`{year, dividend, investment: 0, totalCashFlow: dividend, cumulativeCashFlow}`
with `dividend = currentDividend * (1 + g) ^ year`. -/
def cashFlowLoop (currentDividend g : ℚ) : ℕ → ℕ → ℚ → List CashFlowPoint
  | 0, _, _ => []
  | n + 1, year, cumulativeTotal =>
    let dividend := currentDividend * (1 + g) ^ year
    let cum2 := cumulativeTotal + dividend
    { year := year, dividend := dividend, investment := 0,
      totalCashFlow := dividend, cumulativeCashFlow := cum2 } ::
      cashFlowLoop currentDividend g n (year + 1) cum2

/-- `generateCashFlows` from src/return-modules/state.js: pushes the year-0
initial-investment point, then runs the loop for years 1..`years` starting
from accumulator `-marketPrice`. -/
def generateCashFlows (p : GenParams) : List CashFlowPoint :=
  { year := 0, dividend := 0, investment := -p.marketPrice,
    totalCashFlow := -p.marketPrice, cumulativeCashFlow := -p.marketPrice } ::
    cashFlowLoop p.currentDividend p.growthRateDecimal p.years 1 (-p.marketPrice)

/-- Result object of `calculateRequiredReturnMetrics`: the spread of the
return data plus `cashFlows`. -/
structure MetricsResult where
  requiredReturn : ℚ
  requiredReturnDecimal : ℚ
  d1 : ℚ
  dividendYield : ℚ
  dividendYieldDecimal : ℚ
  growthRateDecimal : ℚ
  isValid : Bool
  cashFlows : List CashFlowPoint
deriving DecidableEq

/-- `calculateRequiredReturnMetrics` from src/return-modules/state.js:
computes the return, then projects cash flows with the derived decimal
growth rate and `years = 10`, and merges both into one result object. -/
def calculateRequiredReturnMetrics (p : ReturnParams) : MetricsResult :=
  let returnData := calculateRequiredReturn p
  let cashFlows := generateCashFlows
    { marketPrice := p.marketPrice, currentDividend := p.currentDividend,
      growthRateDecimal := returnData.growthRateDecimal, years := 10 }
  { requiredReturn := returnData.requiredReturn
    requiredReturnDecimal := returnData.requiredReturnDecimal
    d1 := returnData.d1
    dividendYield := returnData.dividendYield
    dividendYieldDecimal := returnData.dividendYieldDecimal
    growthRateDecimal := returnData.growthRateDecimal
    isValid := returnData.isValid
    cashFlows := cashFlows }

/-- `calculateGordonPrice` from src/return-modules/state.js: throws when
`g >= r` (embedded as `Except.error` carrying the thrown message), else
returns `d1 / (r - g)`. The embedding is a pure function, as is the source. -/
def calculateGordonPrice (d1 r g : ℚ) : Except String ℚ :=
  if g ≥ r then Except.error "Growth rate must be less than required return"
  else Except.ok (d1 / (r - g))

/-! ## Validation module (src/return-modules/utils.js, validation part) -/

/-- A JavaScript value as it reaches `validateField`: a finite number, `NaN`
(e.g. from `parseFloat` of non-numeric text), `null`/`undefined`, or the
empty string. -/
inductive JSValue where
  | num : ℚ → JSValue
  | nan : JSValue
  | null : JSValue
  | emptyStr : JSValue
deriving DecidableEq

/-- One entry of `VALIDATION_RULES`. All three entries of the source define
`min` and `max`, so the `!== undefined` guards of the source are always
true and the bounds are embedded as plain rationals. `pfx` stands for the
`prefix` key of the source object. -/
structure ValidationRule where
  min : ℚ
  max : ℚ
  required : Bool
  label : String
  pfx : Option String
  unit : Option String
deriving DecidableEq

/-- `VALIDATION_RULES` from src/return-modules/utils.js, keyed by field name;
unknown keys give `none` (property lookup miss). -/
def VALIDATION_RULES : String → Option ValidationRule
  | "marketPrice" =>
    some { min := 1, max := 500, required := true, label := "Market price",
           pfx := some "USD", unit := none }
  | "currentDividend" =>
    some { min := 0, max := 50, required := true, label := "Current dividend",
           pfx := some "USD", unit := none }
  | "growthRate" =>
    some { min := 0, max := 25, required := true, label := "Growth rate",
           pfx := none, unit := some "%" }
  | _ => none

/-- The `value === '' || value == null || isNaN(value)` test of
`validateField`: true exactly for the empty string, `null`/`undefined`
and `NaN`. -/
def isMissingValue : JSValue → Bool
  | JSValue.num _ => false
  | JSValue.nan => false || false || true
  | JSValue.null => false || true || false
  | JSValue.emptyStr => true || false || false

/-- JavaScript `value < bound` for the values `validateField` can see:
`NaN` compares false, `null` and the empty string coerce to 0. -/
def jsLtNum : JSValue → ℚ → Bool
  | JSValue.num q, b => decide (q < b)
  | JSValue.nan, _ => false
  | JSValue.null, b => decide ((0 : ℚ) < b)
  | JSValue.emptyStr, b => decide ((0 : ℚ) < b)

/-- JavaScript `value > bound`, same coercions as `jsLtNum`. -/
def jsGtNum : JSValue → ℚ → Bool
  | JSValue.num q, b => decide (b < q)
  | JSValue.nan, _ => false
  | JSValue.null, b => decide (b < (0 : ℚ))
  | JSValue.emptyStr, b => decide (b < (0 : ℚ))

/-- The `${rules.prefix} ${bound}` / `${bound}${rules.unit || ''}` display
string built inside the range branches of `validateField`. -/
def displayBound (rules : ValidationRule) (b : ℚ) : String :=
  match rules.pfx with
  | some p => p ++ " " ++ toString b
  | none => toString b ++ (rules.unit.getD "")

/-- The range message of `validateField` (identical text in the `min` and
`max` branches of the source). -/
def rangeMessage (rules : ValidationRule) : String :=
  rules.label ++ " must be between " ++ displayBound rules rules.min ++
    " and " ++ displayBound rules rules.max

/-- `validateField` from src/return-modules/utils.js: unknown field passes;
a required field that is missing/null/NaN fails with the required message;
then the value is checked against `min` and `max`; else no error. -/
def validateField (field : String) (value : JSValue) : Option String :=
  match VALIDATION_RULES field with
  | none => none
  | some rules =>
    if rules.required && isMissingValue value then
      some (rules.label ++ " is required")
    else if jsLtNum value rules.min then some (rangeMessage rules)
    else if jsGtNum value rules.max then some (rangeMessage rules)
    else none

/-! ## State store (src/return-modules/state.js, store part)

The JavaScript store is a mutable object with dynamic keys plus a
`listeners` array. It is embedded as an association list of fields
together with a list of observer identifiers; `setState` returns the
updated store and, in place of the synchronous `fn(state)` calls, the
list of notifications it performs, each pairing the observer with the
state snapshot it receives, in call order. -/

/-- Write one key as JavaScript assignment does inside `Object.assign`:
overwrite the first existing entry in place, else append at the end. -/
def setKey {α : Type} : List (String × α) → String → α → List (String × α)
  | [], k, v => [(k, v)]
  | kv :: rest, k, v =>
    if kv.1 = k then (k, v) :: rest else kv :: setKey rest k v

/-- JavaScript property read on the embedded object: first entry with the
requested key, if any. -/
def getKey {α : Type} : List (String × α) → String → Option α
  | [], _ => none
  | kv :: rest, k => if kv.1 = k then some kv.2 else getKey rest k

/-- JavaScript `delete obj[k]`. -/
def removeKey {α : Type} : List (String × α) → String → List (String × α)
  | [], _ => []
  | kv :: rest, k =>
    if kv.1 = k then removeKey rest k else kv :: removeKey rest k

/-- `Object.assign(state, updates)`: assign each update key in order. -/
def objectAssign {α : Type} (data updates : List (String × α)) :
    List (String × α) :=
  updates.foldl (fun d kv => setKey d kv.1 kv.2) data

/-- The store: data fields plus registered observers (identifiers, in
registration order). -/
structure Store (α : Type) where
  data : List (String × α)
  listeners : List ℕ
deriving DecidableEq

/-- `setState` from src/return-modules/state.js: `Object.assign` the updates
into the state, then notify every listener in order with the full updated
state. Returns the new store and the notification trace. -/
def setState {α : Type} (s : Store α) (updates : List (String × α)) :
    Store α × List (ℕ × List (String × α)) :=
  let newData := objectAssign s.data updates
  ({ data := newData, listeners := s.listeners },
    s.listeners.map (fun fn => (fn, newData)))

/-- `subscribe` from src/return-modules/state.js: push the callback onto the
listeners array. -/
def subscribe {α : Type} (s : Store α) (fn : ℕ) : Store α :=
  { data := s.data, listeners := s.listeners ++ [fn] }

/-! ## Update orchestrator (main entry file: setupInputListeners /
updateCalculations)

The orchestrator works on the typed application state: the three input
fields, the `errors` object (association list keyed by field name) and
`returnCalculations`. The debounced handler body is embedded as a
function from the current state and the parsed input value to the next
state. -/

/-- `hasErrors` from src/return-modules/utils.js (validation part):
`Object.keys(errors).length > 0`. -/
def hasErrors (errors : List (String × String)) : Bool :=
  decide (0 < errors.length)

/-- The three input fields wired by `setupInputListeners`. -/
inductive InputField where
  | marketPrice
  | currentDividend
  | growthRate
deriving DecidableEq

/-- The `field` string passed to `validateField` and used as error key. -/
def fieldName : InputField → String
  | InputField.marketPrice => "marketPrice"
  | InputField.currentDividend => "currentDividend"
  | InputField.growthRate => "growthRate"

/-- The typed application state relevant to the update pipeline. -/
structure AppState where
  marketPrice : JSValue
  currentDividend : JSValue
  growthRate : JSValue
  errors : List (String × String)
  returnCalculations : Option MetricsResult
deriving DecidableEq

/-- `setState({ [field]: value, ... })` on an input field. -/
def stateSetField (s : AppState) (f : InputField) (v : JSValue) : AppState :=
  match f with
  | InputField.marketPrice => { s with marketPrice := v }
  | InputField.currentDividend => { s with currentDividend := v }
  | InputField.growthRate => { s with growthRate := v }

/-- Numeric read of a stored input value when the calculation runs. On the
no-error path every required field has passed validation and is a finite
number, so only the `num` case is exercised; the other cases are given a
harmless default to keep the function total. -/
def toRat : JSValue → ℚ
  | JSValue.num q => q
  | _ => 0

/-- `updateCalculations` from the main entry file: if the current errors
object is non-empty, clear `returnCalculations`; otherwise compute the
metrics from the current inputs and store them. (The source wraps the
computation in try/catch; the embedded computation is total, so the catch
branch has no counterpart.) -/
def updateCalculations (s : AppState) : AppState :=
  if hasErrors s.errors then { s with returnCalculations := none }
  else
    { s with returnCalculations := some (calculateRequiredReturnMetrics
        { marketPrice := toRat s.marketPrice,
          currentDividend := toRat s.currentDividend,
          growthRate := toRat s.growthRate }) }

/-- The body of the debounced input handler in `setupInputListeners`, after
`parseFloat`: validate the field, insert or delete its error entry on a
copy of `state.errors`, merge the field value and the errors object into
state, and only when the resulting errors object is empty call
`updateCalculations`. -/
def debouncedUpdate (s : AppState) (f : InputField) (value : JSValue) :
    AppState :=
  let error := validateField (fieldName f) value
  let errors := match error with
    | some e => setKey s.errors (fieldName f) e
    | none => removeKey s.errors (fieldName f)
  let s1 := { stateSetField s f value with errors := errors }
  if hasErrors errors then s1 else updateCalculations s1

/-- The defaults of the `state` literal in src/return-modules/state.js:
`marketPrice=54.56, currentDividend=5.10, growthRate=6.40`, no errors, no
result yet. -/
def initialState : AppState :=
  { marketPrice := JSValue.num (5456 / 100),
    currentDividend := JSValue.num (510 / 100),
    growthRate := JSValue.num (640 / 100),
    errors := [],
    returnCalculations := none }

/-- The state right after `init()` has run `updateCalculations()` once. -/
def stateAfterInit : AppState := updateCalculations initialState

/-! ## Concrete example inputs used by the witnesses -/

/-- The worked example of the spec and the first self-test:
`marketPrice=50, currentDividend=2, growthRate=5`. -/
def exampleParams : ReturnParams :=
  { marketPrice := 50, currentDividend := 2, growthRate := 5 }

/-- A triple whose required return equals its growth rate
(zero dividend): `marketPrice=50, currentDividend=0, growthRate=5`. -/
def zeroDividendParams : ReturnParams :=
  { marketPrice := 50, currentDividend := 0, growthRate := 5 }

/-- A small concrete cash-flow input: price 50, dividend 2, growth 5%,
three projected years. -/
def genExample : GenParams :=
  { marketPrice := 50, currentDividend := 2, growthRateDecimal := 1 / 20,
    years := 3 }

/-- C1: `calculateRequiredReturn` computes `g = growthRate/100`,
`d1 = currentDividend*(1+g)`, `dividendYieldDecimal = d1/marketPrice`,
`requiredReturnDecimal = dividendYieldDecimal + g`, the percentage fields are
100 times the decimal fields, and at `(50, 2, 5)` the returned
`requiredReturn` is within 0.1 of 9.2. -/
theorem calculateRequiredReturn_formula (p : ReturnParams) :
    (calculateRequiredReturn p).growthRateDecimal = p.growthRate / 100 ∧
    (calculateRequiredReturn p).d1 = p.currentDividend * (1 + p.growthRate / 100) ∧
    (calculateRequiredReturn p).dividendYieldDecimal =
      (calculateRequiredReturn p).d1 / p.marketPrice ∧
    (calculateRequiredReturn p).requiredReturnDecimal =
      (calculateRequiredReturn p).dividendYieldDecimal +
        (calculateRequiredReturn p).growthRateDecimal ∧
    (calculateRequiredReturn p).requiredReturn =
      100 * (calculateRequiredReturn p).requiredReturnDecimal ∧
    (calculateRequiredReturn p).dividendYield =
      100 * (calculateRequiredReturn p).dividendYieldDecimal ∧
    |(calculateRequiredReturn exampleParams).requiredReturn - 92 / 10| ≤ 1 / 10 := by
  refine ⟨rfl, rfl, rfl, rfl, ?_, ?_,
    by norm_num [calculateRequiredReturn, exampleParams, abs_le]⟩
  · simp [calculateRequiredReturn]; ring
  · simp [calculateRequiredReturn]; ring

/-- A store holding one field `a = 2` and no listeners yet. -/
def storeExample : Store ℚ := { data := [("a", 2)], listeners := [] }

/-! ## Helper lemmas -/

theorem cashFlowLoop_length (D0 g : ℚ) (n : ℕ) :
    ∀ (year : ℕ) (cum : ℚ), (cashFlowLoop D0 g n year cum).length = n := by
  induction n with
  | zero => intro year cum; rfl
  | succ n ih => intro year cum; simp [cashFlowLoop, ih]

theorem cashFlowLoop_cons (D0 g : ℚ) (n year : ℕ) (cum : ℚ) :
    cashFlowLoop D0 g (n + 1) year cum =
      { year := year, dividend := D0 * (1 + g) ^ year, investment := 0,
        totalCashFlow := D0 * (1 + g) ^ year,
        cumulativeCashFlow := cum + D0 * (1 + g) ^ year } ::
        cashFlowLoop D0 g n (year + 1) (cum + D0 * (1 + g) ^ year) := rfl

theorem generateCashFlows_cons (p : GenParams) :
    generateCashFlows p =
      { year := 0, dividend := 0, investment := -p.marketPrice,
        totalCashFlow := -p.marketPrice, cumulativeCashFlow := -p.marketPrice } ::
        cashFlowLoop p.currentDividend p.growthRateDecimal p.years 1
          (-p.marketPrice) := rfl

theorem cashFlowLoop_get_fields (D0 g : ℚ) (n : ℕ) :
    ∀ (year : ℕ) (cum : ℚ) (i : ℕ)
      (h : i < (cashFlowLoop D0 g n year cum).length),
      ((cashFlowLoop D0 g n year cum).get ⟨i, h⟩).year = year + i ∧
      ((cashFlowLoop D0 g n year cum).get ⟨i, h⟩).dividend =
        D0 * (1 + g) ^ (year + i) ∧
      ((cashFlowLoop D0 g n year cum).get ⟨i, h⟩).investment = 0 ∧
      ((cashFlowLoop D0 g n year cum).get ⟨i, h⟩).totalCashFlow =
        D0 * (1 + g) ^ (year + i) := by
  induction n with
  | zero =>
    intro year cum i h
    rw [cashFlowLoop_length] at h
    exact absurd h (Nat.not_lt_zero i)
  | succ n ih =>
    intro year cum i h
    cases i with
    | zero => exact ⟨rfl, rfl, rfl, rfl⟩
    | succ i =>
      have h' : i < (cashFlowLoop D0 g n (year + 1)
          (cum + D0 * (1 + g) ^ year)).length := by
        rw [cashFlowLoop_length] at h ⊢
        omega
      have hrec := ih (year + 1) (cum + D0 * (1 + g) ^ year) i h'
      have he : year + 1 + i = year + (i + 1) := by omega
      rw [he] at hrec
      exact hrec

theorem cashFlowLoop_get_cumulative (D0 g : ℚ) (n : ℕ) :
    ∀ (year : ℕ) (cum : ℚ) (i : ℕ)
      (h : i < (cashFlowLoop D0 g n year cum).length),
      ((cashFlowLoop D0 g n year cum).get ⟨i, h⟩).cumulativeCashFlow =
        cum + (((cashFlowLoop D0 g n year cum).take (i + 1)).map
          CashFlowPoint.totalCashFlow).sum := by
  induction n with
  | zero =>
    intro year cum i h
    rw [cashFlowLoop_length] at h
    exact absurd h (Nat.not_lt_zero i)
  | succ n ih =>
    intro year cum i h
    cases i with
    | zero =>
      show cum + D0 * (1 + g) ^ year = _
      rw [cashFlowLoop_cons, List.take_succ_cons, List.take_zero,
        List.map_cons, List.map_nil, List.sum_cons, List.sum_nil]
      ring
    | succ i =>
      have h' : i < (cashFlowLoop D0 g n (year + 1)
          (cum + D0 * (1 + g) ^ year)).length := by
        rw [cashFlowLoop_length] at h ⊢
        omega
      have hrec := ih (year + 1) (cum + D0 * (1 + g) ^ year) i h'
      show ((cashFlowLoop D0 g n (year + 1)
          (cum + D0 * (1 + g) ^ year)).get ⟨i, h'⟩).cumulativeCashFlow = _
      rw [hrec, cashFlowLoop_cons, List.take_succ_cons, List.map_cons,
        List.sum_cons]
      ring

theorem metrics_cashFlows_length (p : ReturnParams) :
    (calculateRequiredReturnMetrics p).cashFlows.length = 11 := by
  show (generateCashFlows _).length = 11
  rw [generateCashFlows_cons]
  simp [cashFlowLoop_length]

theorem one_lt_metrics_cashFlows_length (p : ReturnParams) :
    1 < (calculateRequiredReturnMetrics p).cashFlows.length := by
  rw [metrics_cashFlows_length]
  omega

/-! ## Claims about the calculation engine -/

/-- C6: `isValid` is true iff `requiredReturnDecimal > 0` and
`growthRateDecimal < requiredReturnDecimal`; in particular `isValid` is
false whenever `growthRateDecimal >= requiredReturnDecimal`. -/
theorem calculateRequiredReturn_isValid_iff (p : ReturnParams) :
    ((calculateRequiredReturn p).isValid = true ↔
      0 < (calculateRequiredReturn p).requiredReturnDecimal ∧
        (calculateRequiredReturn p).growthRateDecimal <
          (calculateRequiredReturn p).requiredReturnDecimal) ∧
    ((calculateRequiredReturn p).requiredReturnDecimal ≤
        (calculateRequiredReturn p).growthRateDecimal →
      (calculateRequiredReturn p).isValid = false) := by
  have hiff : (calculateRequiredReturn p).isValid = true ↔
      0 < (calculateRequiredReturn p).requiredReturnDecimal ∧
        (calculateRequiredReturn p).growthRateDecimal <
          (calculateRequiredReturn p).requiredReturnDecimal := by
    simp [calculateRequiredReturn]
  refine ⟨hiff, fun h => ?_⟩
  rcases Bool.eq_false_or_eq_true (calculateRequiredReturn p).isValid with ht | hf
  · exact absurd (hiff.mp ht).2 (not_lt.mpr h)
  · exact hf

/-- C6 witness: at `marketPrice=50, currentDividend=0, growthRate=5` the
required return equals the growth rate and `isValid` is false. -/
theorem calculateRequiredReturn_isValid_iff_witness :
    (calculateRequiredReturn zeroDividendParams).requiredReturnDecimal ≤
      (calculateRequiredReturn zeroDividendParams).growthRateDecimal ∧
    (calculateRequiredReturn zeroDividendParams).isValid = false :=
  ⟨by simp [calculateRequiredReturn, zeroDividendParams],
   (calculateRequiredReturn_isValid_iff zeroDividendParams).2
     (by simp [calculateRequiredReturn, zeroDividendParams])⟩

/-- C9: `calculateGordonPrice d1 r g` throws exactly when `g >= r`, and for
`g < r` it returns `d1 / (r - g)`; the embedding is a pure function, so no
state is modified. -/
theorem calculateGordonPrice_spec (d1 r g : ℚ) :
    ((calculateGordonPrice d1 r g = Except.error
        "Growth rate must be less than required return") ↔ r ≤ g) ∧
    (g < r → calculateGordonPrice d1 r g = Except.ok (d1 / (r - g))) := by
  by_cases hc : r ≤ g
  · refine ⟨⟨fun _ => hc, fun _ => ?_⟩, fun h => absurd hc (not_le.mpr h)⟩
    simp [calculateGordonPrice, hc]
  · refine ⟨⟨fun h => ?_, fun h => absurd h hc⟩, fun h => ?_⟩
    · simp [calculateGordonPrice, hc] at h
    · simp [calculateGordonPrice, hc]

/-- C9 witness: at `d1=1, r=2, g=1` the helper succeeds with `1/(2-1)`. -/
theorem calculateGordonPrice_spec_witness :
    (1 : ℚ) < 2 ∧ calculateGordonPrice 1 2 1 = Except.ok (1 / (2 - 1)) :=
  ⟨by norm_num, (calculateGordonPrice_spec 1 2 1).2 (by norm_num)⟩

/-- C10: with `currentDividend = 0` the required return equals the growth
rate, so `isValid` is false for every market price and growth rate, while
`validateField` accepts a zero dividend because its minimum is 0. -/
theorem zero_dividend_isValid_false (marketPrice growthRate : ℚ) :
    (calculateRequiredReturn ⟨marketPrice, 0, growthRate⟩).isValid = false ∧
    validateField "currentDividend" (JSValue.num 0) = none := by
  constructor
  · simp [calculateRequiredReturn]
  · rfl

/-- C3: in every cash-flow sequence, `cumulativeCashFlow` at index N equals
the sum of the `totalCashFlow` values at indices 0..N. -/
theorem generateCashFlows_cumulative (p : GenParams) (N : ℕ)
    (h : N < (generateCashFlows p).length) :
    ((generateCashFlows p).get ⟨N, h⟩).cumulativeCashFlow =
      (((generateCashFlows p).take (N + 1)).map
        CashFlowPoint.totalCashFlow).sum := by
  cases N with
  | zero =>
    show -p.marketPrice = _
    rw [generateCashFlows_cons, List.take_succ_cons, List.take_zero,
      List.map_cons, List.map_nil, List.sum_cons, List.sum_nil]
    ring
  | succ i =>
    have h' : i < (cashFlowLoop p.currentDividend p.growthRateDecimal
        p.years 1 (-p.marketPrice)).length := by
      rw [generateCashFlows_cons] at h
      simpa using h
    have hrec := cashFlowLoop_get_cumulative p.currentDividend
      p.growthRateDecimal p.years 1 (-p.marketPrice) i h'
    show ((cashFlowLoop p.currentDividend p.growthRateDecimal p.years 1
        (-p.marketPrice)).get ⟨i, h'⟩).cumulativeCashFlow = _
    rw [hrec, generateCashFlows_cons, List.take_succ_cons, List.map_cons,
      List.sum_cons]

/-- C3 witness: the invariant at index 2 of the concrete three-year
projection. -/
theorem generateCashFlows_cumulative_witness :
    ((generateCashFlows genExample).get ⟨2, by decide⟩).cumulativeCashFlow =
      (((generateCashFlows genExample).take (2 + 1)).map
        CashFlowPoint.totalCashFlow).sum :=
  generateCashFlows_cumulative genExample 2 (by decide)

/-- C4: `generateCashFlows` yields `years + 1` points with year fields
0..years in order; the year-0 point is the initial investment
`{dividend 0, investment -marketPrice, totalCashFlow -marketPrice,
cumulativeCashFlow -marketPrice}`; every later point t has
`dividend = currentDividend * (1+g)^t`, `investment = 0` and
`totalCashFlow` equal to its dividend; with the default `years = 10` the
sequence has exactly 11 points. -/
theorem generateCashFlows_points (p : GenParams) :
    (generateCashFlows p).length = p.years + 1 ∧
    (∀ (i : ℕ) (h : i < (generateCashFlows p).length),
      ((generateCashFlows p).get ⟨i, h⟩).year = i) ∧
    (generateCashFlows p).head? = some
      { year := 0, dividend := 0, investment := -p.marketPrice,
        totalCashFlow := -p.marketPrice,
        cumulativeCashFlow := -p.marketPrice } ∧
    (∀ (t : ℕ) (h : t < (generateCashFlows p).length), 1 ≤ t →
      ((generateCashFlows p).get ⟨t, h⟩).dividend =
        p.currentDividend * (1 + p.growthRateDecimal) ^ t ∧
      ((generateCashFlows p).get ⟨t, h⟩).investment = 0 ∧
      ((generateCashFlows p).get ⟨t, h⟩).totalCashFlow =
        ((generateCashFlows p).get ⟨t, h⟩).dividend) ∧
    (∀ marketPrice currentDividend growthRateDecimal : ℚ,
      (generateCashFlows
          { marketPrice := marketPrice, currentDividend := currentDividend,
            growthRateDecimal := growthRateDecimal }).length = 11) := by
  refine ⟨?_, ?_, rfl, ?_, ?_⟩
  · rw [generateCashFlows_cons]
    simp [cashFlowLoop_length]
  · intro i h
    cases i with
    | zero => rfl
    | succ i =>
      have h' : i < (cashFlowLoop p.currentDividend p.growthRateDecimal
          p.years 1 (-p.marketPrice)).length := by
        rw [generateCashFlows_cons] at h
        simpa using h
      have hf := (cashFlowLoop_get_fields p.currentDividend
        p.growthRateDecimal p.years 1 (-p.marketPrice) i h').1
      show ((cashFlowLoop p.currentDividend p.growthRateDecimal p.years 1
          (-p.marketPrice)).get ⟨i, h'⟩).year = i + 1
      rw [hf]
      omega
  · intro t h h1
    cases t with
    | zero => exact absurd h1 (by omega)
    | succ i =>
      have h' : i < (cashFlowLoop p.currentDividend p.growthRateDecimal
          p.years 1 (-p.marketPrice)).length := by
        rw [generateCashFlows_cons] at h
        simpa using h
      have hf := cashFlowLoop_get_fields p.currentDividend
        p.growthRateDecimal p.years 1 (-p.marketPrice) i h'
      have he : 1 + i = i + 1 := by omega
      refine ⟨?_, ?_, ?_⟩
      · show ((cashFlowLoop p.currentDividend p.growthRateDecimal p.years 1
            (-p.marketPrice)).get ⟨i, h'⟩).dividend = _
        rw [hf.2.1, he]
      · exact hf.2.2.1
      · show ((cashFlowLoop p.currentDividend p.growthRateDecimal p.years 1
            (-p.marketPrice)).get ⟨i, h'⟩).totalCashFlow =
          ((cashFlowLoop p.currentDividend p.growthRateDecimal p.years 1
            (-p.marketPrice)).get ⟨i, h'⟩).dividend
        rw [hf.2.2.2, hf.2.1]
  · intro marketPrice currentDividend growthRateDecimal
    rw [generateCashFlows_cons]
    simp [cashFlowLoop_length]

/-- C4 witness: index 2 of the concrete three-year projection has year 2
and the compound-growth dividend. -/
theorem generateCashFlows_points_witness :
    ((generateCashFlows genExample).get ⟨2, by decide⟩).year = 2 ∧
    ((generateCashFlows genExample).get ⟨2, by decide⟩).dividend =
      genExample.currentDividend * (1 + genExample.growthRateDecimal) ^ 2 :=
  ⟨(generateCashFlows_points genExample).2.1 2 (by decide),
   ((generateCashFlows_points genExample).2.2.2.1 2 (by decide)
     (by omega)).1⟩

/-- C5: in `calculateRequiredReturnMetrics` the year-1 point of the
cash-flow sequence has dividend equal to the `d1` of the required-return
calculation. -/
theorem metrics_year1_dividend_eq_d1 (p : ReturnParams) :
    ((calculateRequiredReturnMetrics p).cashFlows.get
        ⟨1, one_lt_metrics_cashFlows_length p⟩).dividend =
      (calculateRequiredReturn p).d1 := by
  have hstep : ((calculateRequiredReturnMetrics p).cashFlows.get
      ⟨1, one_lt_metrics_cashFlows_length p⟩).dividend =
      p.currentDividend *
        (1 + (calculateRequiredReturn p).growthRateDecimal) ^ 1 := rfl
  rw [hstep, pow_one]
  rfl

theorem getKey_setKey_self {α : Type} (data : List (String × α))
    (k : String) (v : α) : getKey (setKey data k v) k = some v := by
  induction data with
  | nil => simp [setKey, getKey]
  | cons kv rest ih =>
    by_cases hk : kv.1 = k
    · simp [setKey, hk, getKey]
    · simp [setKey, hk, getKey, ih]

theorem getKey_setKey_ne {α : Type} (data : List (String × α))
    (k k' : String) (v : α) (hne : k' ≠ k) :
    getKey (setKey data k v) k' = getKey data k' := by
  induction data with
  | nil => simp [setKey, getKey, Ne.symm hne]
  | cons kv rest ih =>
    by_cases hk : kv.1 = k
    · simp [setKey, hk, getKey, Ne.symm hne]
    · by_cases hk' : kv.1 = k'
      · simp [setKey, getKey, hk, hk', hne]
      · simp [setKey, getKey, hk, hk', ih]

theorem getKey_objectAssign_not_mem {α : Type}
    (updates : List (String × α)) :
    ∀ (data : List (String × α)) (k : String), k ∉ updates.map Prod.fst →
      getKey (objectAssign data updates) k = getKey data k := by
  induction updates with
  | nil => intro data k _; rfl
  | cons kv rest ih =>
    intro data k hk
    rw [List.map_cons] at hk
    have hk1 : k ≠ kv.1 := fun h => hk (h ▸ List.mem_cons_self _ _)
    have hk2 : k ∉ rest.map Prod.fst := fun h => hk (List.mem_cons_of_mem _ h)
    show getKey (objectAssign (setKey data kv.1 kv.2) rest) k = getKey data k
    rw [ih (setKey data kv.1 kv.2) k hk2,
      getKey_setKey_ne data kv.1 k kv.2 hk1]

theorem getKey_objectAssign_mem {α : Type} (updates : List (String × α)) :
    ∀ (data : List (String × α)) (k : String) (v : α),
      (updates.map Prod.fst).Nodup → (k, v) ∈ updates →
      getKey (objectAssign data updates) k = some v := by
  induction updates with
  | nil => intro data k v _ hm; simp at hm
  | cons kv rest ih =>
    intro data k v hnd hm
    rw [List.map_cons, List.nodup_cons] at hnd
    rcases List.mem_cons.mp hm with heq | hmem
    · cases heq
      show getKey (objectAssign (setKey data k v) rest) k = some v
      rw [getKey_objectAssign_not_mem rest (setKey data k v) k hnd.1,
        getKey_setKey_self data k v]
    · show getKey (objectAssign (setKey data kv.1 kv.2) rest) k = some v
      exact ih (setKey data kv.1 kv.2) k v hnd.2 hmem

/-- C7: `setState` merges the update object into the state (fields not
named in the update keep their values, fields named with distinct keys take
the update values) and then notifies every registered observer exactly
once, in registration order, each with the full updated state; in
particular with two subscribed observers, `setState [("x", x)]` invokes
both in order with a state in which `x` is set. -/
theorem setState_merge_notify {α : Type} (s : Store α)
    (updates : List (String × α)) :
    (∀ k, k ∉ updates.map Prod.fst →
      getKey (setState s updates).1.data k = getKey s.data k) ∧
    ((updates.map Prod.fst).Nodup → ∀ k v, (k, v) ∈ updates →
      getKey (setState s updates).1.data k = some v) ∧
    ((setState s updates).2 =
      s.listeners.map (fun fn => (fn, (setState s updates).1.data))) ∧
    (∀ (d : List (String × α)) (o1 o2 : ℕ) (x : α),
      (setState (subscribe (subscribe (Store.mk d []) o1) o2) [("x", x)]).2 =
        [(o1, (setState (subscribe (subscribe (Store.mk d []) o1) o2)
            [("x", x)]).1.data),
         (o2, (setState (subscribe (subscribe (Store.mk d []) o1) o2)
            [("x", x)]).1.data)] ∧
      getKey (setState (subscribe (subscribe (Store.mk d []) o1) o2)
          [("x", x)]).1.data "x" = some x) := by
  refine ⟨fun k hk => getKey_objectAssign_not_mem updates s.data k hk,
    fun hnd k v hm => getKey_objectAssign_mem updates s.data k v hnd hm,
    rfl, fun d o1 o2 x => ⟨rfl, ?_⟩⟩
  show getKey (setKey d "x" x) "x" = some x
  exact getKey_setKey_self d "x" x

/-- C7 witness: on a store holding `a = 2`, `setState [("x", 1)]` leaves
`a` unchanged and sets `x` to 1. -/
theorem setState_merge_notify_witness :
    getKey (setState storeExample [("x", 1)]).1.data "a" =
      getKey storeExample.data "a" ∧
    getKey (setState storeExample [("x", 1)]).1.data "x" = some 1 :=
  ⟨(setState_merge_notify storeExample [("x", 1)]).1 "a" (by decide),
   (setState_merge_notify storeExample [("x", 1)]).2.1 (by decide)
     "x" 1 (by decide)⟩

/-- C8: `validateField` checks required before range and enforces inclusive
bounds: `marketPrice` at 0 and at 500.01 gives the range error, at 1 and
500 no error; and every required field with a missing, null or NaN value
yields the required message before any range check. -/
theorem validateField_spec :
    validateField "marketPrice" (JSValue.num 0) =
      (VALIDATION_RULES "marketPrice").map rangeMessage ∧
    validateField "marketPrice" (JSValue.num 1) = none ∧
    validateField "marketPrice" (JSValue.num 500) = none ∧
    validateField "marketPrice" (JSValue.num (50001 / 100)) =
      (VALIDATION_RULES "marketPrice").map rangeMessage ∧
    (∀ (field : String) (rules : ValidationRule) (value : JSValue),
      VALIDATION_RULES field = some rules → rules.required = true →
      isMissingValue value = true →
      validateField field value = some (rules.label ++ " is required")) := by
  refine ⟨rfl, rfl, rfl, ?_, ?_⟩
  · have h1 : jsLtNum (JSValue.num (50001 / 100)) 1 = false := by
      norm_num [jsLtNum]
    have h2 : jsGtNum (JSValue.num (50001 / 100)) 500 = true := by
      norm_num [jsGtNum]
    simp [validateField, VALIDATION_RULES, isMissingValue, h1, h2]
  · intro field rules value hr hreq hmiss
    unfold validateField
    rw [hr]
    simp [hreq, hmiss]

/-- C8 witness: the required-before-range rule applied to `marketPrice`
with a NaN value. -/
theorem validateField_spec_witness :
    validateField "marketPrice" JSValue.nan =
      some ("Market price" ++ " is required") :=
  validateField_spec.2.2.2.2 "marketPrice"
    { min := 1, max := 500, required := true, label := "Market price",
      pfx := some "USD", unit := none } JSValue.nan rfl rfl rfl

/-- C2 (code behavior at the failing input): starting from the state right
after `init()` has computed a result from the defaults, a debounced
`marketPrice` input of 0 makes the resulting errors object non-empty, yet
`returnCalculations` keeps the previously computed result instead of
becoming absent: the handler skips `updateCalculations` whenever the
errors object is non-empty, so the clearing branch inside
`updateCalculations` is never reached from the input path. -/
theorem debouncedUpdate_keeps_stale_result :
    stateAfterInit.returnCalculations.isSome = true ∧
    hasErrors (debouncedUpdate stateAfterInit InputField.marketPrice
      (JSValue.num 0)).errors = true ∧
    (debouncedUpdate stateAfterInit InputField.marketPrice
        (JSValue.num 0)).returnCalculations =
      stateAfterInit.returnCalculations ∧
    (debouncedUpdate stateAfterInit InputField.marketPrice
      (JSValue.num 0)).returnCalculations.isSome = true :=
  ⟨rfl, rfl, rfl, rfl⟩
